import Mathlib

/-!
# Verification of the segment-difficulty scoring engine

Shallow embedding of `src/utils/segmentDifficulty.js`: duration parsing
(`parseKomTime`), the three-parameter critical-power reference curve
(`referencePower`), the physical power model (`calculateRequiredW`), the
difficulty classifier (`getDifficultyClass`), the orchestrator
(`calculateSegmentDifficulty`) and the record-normalizing wrapper
(`getSegmentDifficulty`).

Modelling conventions:
* JavaScript numbers are modelled as `ℚ` (the model's arithmetic is exact;
  all claims are formula-level or tolerance-based).
* `null`/`undefined` inputs are modelled as `Option.none`.
* JavaScript truthiness of a number is `≠ 0`; of a string, `≠ ""`.
* String primitives (`trim`, `split(':')`, `parseInt(·, 10)`) are modelled
  on `List Char` with the exact ECMAScript semantics the code relies on:
  `parseInt` skips leading whitespace, accepts an optional sign, consumes
  the longest digit prefix and ignores any trailing characters, returning
  NaN (here `none`) only when no digit was consumed.
* A thrown exception (relevant because `timeStr.trim()` throws when
  `timeStr` is a number) is modelled with `Except String`; the
  dynamically-typed entry point `calculateSegmentDifficultyDyn` takes the
  `komTime` argument as a JS value that may be a string, a number, `null`
  or `undefined`.
-/

namespace SegmentDifficulty

/-! ## Constants (lines 13-45 of the source) -/

structure PhysicsConstants where
  g : ℚ
  rho : ℚ
  bikeMass : ℚ
  Crr : ℚ
  CdA : ℚ
  eta : ℚ
deriving DecidableEq

def PHYSICS : PhysicsConstants :=
  { g := 9.81, rho := 1.2, bikeMass := 8, Crr := 0.004, CdA := 0.28, eta := 0.98 }

structure CpModelConstants where
  Pmax : ℚ
  CP : ℚ
  Wprime : ℚ
deriving DecidableEq

def CP_MODEL : CpModelConstants := { Pmax := 21.80, CP := 4.77, Wprime := 280 }

/-- `APR = CP_MODEL.Pmax - CP_MODEL.CP` (source comment: 17.03). -/
def APR : ℚ := CP_MODEL.Pmax - CP_MODEL.CP

/-- `W_APR = CP_MODEL.Wprime * APR` (source comment: 4768.4). -/
def W_APR : ℚ := CP_MODEL.Wprime * APR

/-- One row of the `DIFFICULTY_CLASSES` table.  The JS field `class` is a
Lean keyword, so it is rendered as `cls`. -/
structure DifficultyBand where
  min : ℚ
  cls : String
  label : String
  color : String
deriving DecidableEq

def DIFFICULTY_CLASSES : List DifficultyBand :=
  [ { min := 150, cls := "suspicious", label := "hmmmm", color := "#6b7280" },
    { min := 130, cls := "extreme", label := "Extrem", color := "#7c3aed" },
    { min := 110, cls := "very-hard", label := "Sehr schwer", color := "#dc2626" },
    { min := 90, cls := "hard", label := "Schwer", color := "#ea580c" },
    { min := 70, cls := "moderate", label := "Moderat", color := "#ca8a04" },
    { min := 50, cls := "accessible", label := "Machbar", color := "#16a34a" },
    { min := 0, cls := "easy", label := "Einfach", color := "#22c55e" } ]

/-! ## JS string primitives -/

/-- JS whitespace test used by `trim` and `parseInt`. -/
def isJsSpace (c : Char) : Bool := c.isWhitespace

/-- `String.prototype.trim`: strip leading and trailing whitespace. -/
def jsTrim (cs : List Char) : List Char :=
  ((cs.dropWhile isJsSpace).reverse.dropWhile isJsSpace).reverse

/-- Numeric value of a (decimal-digit) character list, most significant
digit first. -/
def digitsVal (ds : List Char) : ℕ :=
  ds.foldl (fun a c => 10 * a + (c.toNat - 48)) 0

/-- Longest digit prefix converted to a natural number, or `none` (NaN)
when no digit was consumed. -/
def digitPrefixVal (cs : List Char) : Option ℕ :=
  let ds := cs.takeWhile Char.isDigit
  if ds.isEmpty then none else some (digitsVal ds)

/-- `parseInt(s, 10)`: skip leading whitespace, optional sign, longest
digit prefix, ignore the rest; `none` (NaN) iff no digit was consumed
(`digitPrefixVal [] = none` covers the empty case). -/
def jsParseInt (cs : List Char) : Option ℤ :=
  let body := cs.dropWhile isJsSpace
  if body.head? = some '-' then (digitPrefixVal body.tail).map (fun n => -(Int.ofNat n))
  else if body.head? = some '+' then (digitPrefixVal body.tail).map (fun n => Int.ofNat n)
  else (digitPrefixVal body).map (fun n => Int.ofNat n)

/-- `s.split(sep)` for a one-character separator: always returns at least
one (possibly empty) piece; `"".split(sep) = [""]`. -/
def splitOnChar (sep : Char) : List Char → List (List Char)
  | [] => [[]]
  | c :: rest =>
      let r := splitOnChar sep rest
      if c = sep then [] :: r
      else
        match r with
        | [] => [[c]]
        | h :: t => (c :: h) :: t

/-- The regex `/^\d+s?$/` from line 64: one or more digits, optionally a
single trailing `s` (the body is the list without a trailing `s`; the
empty list has no last element and fails). -/
def isSecondsLiteral (cs : List Char) : Bool :=
  if cs.getLast? = some 's' then !cs.dropLast.isEmpty && cs.dropLast.all Char.isDigit
  else !cs.isEmpty && cs.all Char.isDigit

/-! ## parseKomTime (lines 57-82) -/

/-- `parseKomTime`: `""` and `"—"` are rejected up front; a pure-digit
literal (optional trailing `s`) is seconds; otherwise split on `:` and
`parseInt` each piece; any NaN piece rejects the whole string; two pieces
are `MM:SS`, three are `HH:MM:SS`; any other count is rejected. -/
def parseKomTime (timeStr : String) : Option ℤ :=
  if timeStr = "" ∨ timeStr = "—" then none
  else
    let clean := jsTrim timeStr.toList
    if isSecondsLiteral clean then jsParseInt clean
    else
      let parts := (splitOnChar ':' clean).map jsParseInt
      if parts.any Option.isNone then none
      else
        match parts with
        | [some m, some s] => some (m * 60 + s)
        | [some h, some m, some s] => some (h * 3600 + m * 60 + s)
        | _ => none

/-! ## referencePower (lines 89-92) -/

/-- Three-parameter critical-power reference curve. -/
def referencePower (t : ℚ) : ℚ :=
  if t ≤ 0 then CP_MODEL.Pmax
  else CP_MODEL.CP + W_APR / (CP_MODEL.Wprime + APR * t)

/-! ## calculateRequiredW (lines 102-118) -/

structure RequiredW where
  P_total : ℚ
  P_totalWkg : ℚ
deriving DecidableEq

/-- Quasi-static physics model: gravity + rolling + aero power over
drivetrain efficiency, absolute and per kilogram. -/
def calculateRequiredW (distance elevation timeSeconds riderMass : ℚ) : RequiredW :=
  let v := distance / timeSeconds
  let grade := elevation / distance
  let totalMass := riderMass + PHYSICS.bikeMass
  let P_gravity := totalMass * PHYSICS.g * v * grade
  let P_rolling := totalMass * PHYSICS.g * v * PHYSICS.Crr
  let P_aero := 0.5 * PHYSICS.rho * PHYSICS.CdA * v * v * v
  let P_total := (P_gravity + P_rolling + P_aero) / PHYSICS.eta
  let P_totalWkg := P_total / riderMass
  { P_total := P_total, P_totalWkg := P_totalWkg }

/-! ## getDifficultyClass (lines 125-136) -/

/-- What the classifier returns: the `class`/`label`/`color` projection of
a band (`class` rendered as `cls`). -/
structure DifficultyClassInfo where
  cls : String
  label : String
  color : String
deriving DecidableEq

def bandInfo (b : DifficultyBand) : DifficultyClassInfo :=
  { cls := b.cls, label := b.label, color := b.color }

/-- First band (top to bottom) whose `min` is ≤ the score wins; if no band
matches, fall through to the last table entry. -/
def getDifficultyClass (score : ℚ) : DifficultyClassInfo :=
  match DIFFICULTY_CLASSES.find? (fun level => level.min ≤ score) with
  | some level => bandInfo level
  | none => bandInfo (DIFFICULTY_CLASSES.getLast (by decide))

/-! ## calculateSegmentDifficulty (lines 153-197) -/

structure DifficultyResult where
  komPower : Option ℚ
  komPowerWKg : Option ℚ
  difficultyScore : Option ℚ
  difficultyClass : DifficultyClassInfo
  isValid : Bool
deriving DecidableEq

/-- The invalid sentinel (lines 155-161). -/
def defaultResult : DifficultyResult :=
  { komPower := none, komPowerWKg := none, difficultyScore := none,
    difficultyClass := { cls := "unknown", label := "—", color := "#9ca3af" },
    isValid := false }

/-- Models `!x || x <= 0` for a nullable JS number `x`. -/
def numFalsyOrNonpos : Option ℚ → Bool
  | none => true
  | some x => decide (x ≤ 0)

/-- Models `!s` for a nullable JS string `s`. -/
def strFalsy : Option String → Bool
  | none => true
  | some s => decide (s = "")

/-- Models `!t || t <= 0` for the nullable parse result `t`. -/
def intFalsyOrNonpos : Option ℤ → Bool
  | none => true
  | some t => decide (t ≤ 0)

/-- The valid-path computation (lines 182-196): required power, reference
power, score and class. -/
def scoreResult (distance elevation : ℚ) (komSeconds : ℤ) (riderMass : ℚ) :
    DifficultyResult :=
  let powerResult := calculateRequiredW distance elevation (komSeconds : ℚ) riderMass
  let komPower := powerResult.P_total
  let komPowerWKg := powerResult.P_totalWkg
  let refPower := referencePower (komSeconds : ℚ)
  let difficultyScore := komPowerWKg / refPower * 100
  let difficultyClass := getDifficultyClass difficultyScore
  { komPower := some komPower, komPowerWKg := some komPowerWKg,
    difficultyScore := some difficultyScore, difficultyClass := difficultyClass,
    isValid := true }

/-- The orchestrator on its documented interface (`komTime` a nullable
string): validate, parse, reject non-positive durations, else score. -/
def calculateSegmentDifficulty (distance elevation : Option ℚ)
    (komTime : Option String) (riderMass : Option ℚ) : DifficultyResult :=
  if numFalsyOrNonpos distance ∨ elevation.isNone
      ∨ numFalsyOrNonpos riderMass ∨ strFalsy komTime then
    defaultResult
  else
    let komSeconds := parseKomTime (komTime.getD "")
    if intFalsyOrNonpos komSeconds then defaultResult
    else scoreResult (distance.getD 0) (elevation.getD 0) (komSeconds.getD 0)
      (riderMass.getD 0)

/-! ## The dynamically-typed komTime argument -/

/-- A JS value in the `komTime` position: string, number, null or
undefined. -/
inductive JSTimeVal where
  | vstr : String → JSTimeVal
  | vnum : ℚ → JSTimeVal
  | vnull : JSTimeVal
  | vundef : JSTimeVal
deriving DecidableEq

/-- JS falsiness of a `komTime` value. -/
def jsTimeFalsy : JSTimeVal → Bool
  | JSTimeVal.vstr s => decide (s = "")
  | JSTimeVal.vnum q => decide (q = 0)
  | JSTimeVal.vnull => true
  | JSTimeVal.vundef => true

/-- `parseKomTime` applied to a dynamically-typed argument.  A falsy value
returns early (line 58); a non-zero number survives that guard and the
`=== '—'` test (type mismatch) and then throws, because a JS number has no
`trim` method (line 61). -/
def parseKomTimeDyn : JSTimeVal → Except String (Option ℤ)
  | JSTimeVal.vstr s => Except.ok (parseKomTime s)
  | JSTimeVal.vnum q =>
      if q = 0 then Except.ok none
      else Except.error "TypeError: timeStr.trim is not a function"
  | JSTimeVal.vnull => Except.ok none
  | JSTimeVal.vundef => Except.ok none

/-- The orchestrator with a dynamically-typed `komTime`, exposing the
exception behaviour of the source. -/
def calculateSegmentDifficultyDyn (distance elevation : Option ℚ)
    (komTime : JSTimeVal) (riderMass : Option ℚ) :
    Except String DifficultyResult :=
  if numFalsyOrNonpos distance ∨ elevation.isNone
      ∨ numFalsyOrNonpos riderMass ∨ jsTimeFalsy komTime then
    Except.ok defaultResult
  else
    match parseKomTimeDyn komTime with
    | Except.error e => Except.error e
    | Except.ok komSeconds =>
        if intFalsyOrNonpos komSeconds then Except.ok defaultResult
        else Except.ok (scoreResult (distance.getD 0) (elevation.getD 0)
          (komSeconds.getD 0) (riderMass.getD 0))

/-! ## getSegmentDifficulty (lines 206-224) -/

structure SegmentXoms where
  kom : Option String
deriving DecidableEq

structure SegmentData where
  distance : Option ℚ
  elev_difference : Option ℚ
deriving DecidableEq

structure SegmentDetails where
  distance : Option ℚ
  total_elevation_gain : Option ℚ
  xoms : Option SegmentXoms
deriving DecidableEq

structure Segment where
  data : Option SegmentData
  details : Option SegmentDetails
deriving DecidableEq

/-- Models `a || b` on nullable JS numbers: `b` when `a` is nullish or 0. -/
def jsOrNum (a b : Option ℚ) : Option ℚ :=
  match a with
  | some q => if q = 0 then b else some q
  | none => b

/-- Models `a ?? b` on nullable JS numbers: `b` only when `a` is nullish. -/
def jsNullishNum (a b : Option ℚ) : Option ℚ :=
  match a with
  | some q => some q
  | none => b

/-- Wrapper: distance prefers `details.distance` (truthy `||`), elevation
prefers `data.elev_difference` (nullish `??`) then
`details.total_elevation_gain` then 0, KOM time from `details.xoms.kom`. -/
def getSegmentDifficulty (segment : Segment) (riderMass : Option ℚ) :
    DifficultyResult :=
  let distance := jsOrNum (segment.details.bind SegmentDetails.distance)
    (segment.data.bind SegmentData.distance)
  let elevation := jsNullishNum
    (jsNullishNum (segment.data.bind SegmentData.elev_difference)
      (segment.details.bind SegmentDetails.total_elevation_gain))
    (some 0)
  let komTime := (segment.details.bind SegmentDetails.xoms).bind SegmentXoms.kom
  calculateSegmentDifficulty distance elevation komTime riderMass

/-! ## Helper lemmas -/

theorem referencePower_pos_eq (t : ℚ) (ht : 0 < t) :
    referencePower t = 4.77 + 4768.4 / (280 + 17.03 * t) := by
  rw [referencePower, if_neg (not_le.mpr ht)]
  norm_num [CP_MODEL, APR, W_APR]

theorem referencePower_antitone (t1 t2 : ℚ) (h1 : 0 < t1) (h12 : t1 < t2) :
    referencePower t2 ≤ referencePower t1 := by
  have h2 : 0 < t2 := h1.trans h12
  rw [referencePower_pos_eq t1 h1, referencePower_pos_eq t2 h2]
  have hd1 : (0 : ℚ) < 280 + 17.03 * t1 := by nlinarith
  have hd2 : (0 : ℚ) < 280 + 17.03 * t2 := by nlinarith
  have hle : (280 : ℚ) + 17.03 * t1 ≤ 280 + 17.03 * t2 := by nlinarith
  gcongr

/-- Evaluation of the classifier in the `suspicious` band. -/
theorem getDifficultyClass_suspicious (q : ℚ) (h : 150 ≤ q) :
    getDifficultyClass q = { cls := "suspicious", label := "hmmmm", color := "#6b7280" } := by
  simp only [getDifficultyClass, DIFFICULTY_CLASSES]
  rw [List.find?_cons_of_pos _ (by simp only [decide_eq_true_eq]; exact h)]
  rfl

/-- Evaluation of the classifier in the `extreme` band. -/
theorem getDifficultyClass_extreme (q : ℚ) (h1 : 130 ≤ q) (h2 : q < 150) :
    getDifficultyClass q = { cls := "extreme", label := "Extrem", color := "#7c3aed" } := by
  simp only [getDifficultyClass, DIFFICULTY_CLASSES]
  rw [List.find?_cons_of_neg _ (by simp only [decide_eq_true_eq]; exact not_le.mpr h2),
    List.find?_cons_of_pos _ (by simp only [decide_eq_true_eq]; exact h1)]
  rfl

/-- Evaluation of the classifier in the `accessible` band. -/
theorem getDifficultyClass_accessible (q : ℚ) (h1 : 50 ≤ q) (h2 : q < 70) :
    getDifficultyClass q = { cls := "accessible", label := "Machbar", color := "#16a34a" } := by
  simp only [getDifficultyClass, DIFFICULTY_CLASSES]
  rw [List.find?_cons_of_neg _ (by simp only [decide_eq_true_eq]; intro h3; linarith),
    List.find?_cons_of_neg _ (by simp only [decide_eq_true_eq]; intro h3; linarith),
    List.find?_cons_of_neg _ (by simp only [decide_eq_true_eq]; intro h3; linarith),
    List.find?_cons_of_neg _ (by simp only [decide_eq_true_eq]; intro h3; linarith),
    List.find?_cons_of_neg _ (by simp only [decide_eq_true_eq]; exact not_le.mpr h2),
    List.find?_cons_of_pos _ (by simp only [decide_eq_true_eq]; exact h1)]
  rfl

/-- Evaluation of the classifier in the `easy` band, including the
fall-through for negative scores. -/
theorem getDifficultyClass_easy (q : ℚ) (h : q < 50) :
    getDifficultyClass q = { cls := "easy", label := "Einfach", color := "#22c55e" } := by
  simp only [getDifficultyClass, DIFFICULTY_CLASSES]
  rw [List.find?_cons_of_neg _ (by simp only [decide_eq_true_eq]; intro hc; linarith),
    List.find?_cons_of_neg _ (by simp only [decide_eq_true_eq]; intro hc; linarith),
    List.find?_cons_of_neg _ (by simp only [decide_eq_true_eq]; intro hc; linarith),
    List.find?_cons_of_neg _ (by simp only [decide_eq_true_eq]; intro hc; linarith),
    List.find?_cons_of_neg _ (by simp only [decide_eq_true_eq]; intro hc; linarith),
    List.find?_cons_of_neg _ (by simp only [decide_eq_true_eq]; intro hc; linarith)]
  by_cases h0 : (0 : ℚ) ≤ q
  · rw [List.find?_cons_of_pos _ (by simp only [decide_eq_true_eq]; exact h0)]
    rfl
  · rw [List.find?_cons_of_neg _ (by simp only [decide_eq_true_eq]; exact h0)]
    rfl

/-! ## C4: reference power curve -/

/-- C4: `referencePower` is non-increasing on positive durations, returns
`Pmax = 21.80` for every `t ≤ 0`, equals `4.77 + 4768.4/(280 + 17.03 t)`
for `t > 0`, and is within 0.01 of `CP = 4.77` at `t = 100000`. -/
theorem referencePower_monotonicity_claim :
    (∀ t1 t2 : ℚ, 0 < t1 → t1 < t2 → referencePower t1 ≥ referencePower t2)
    ∧ (∀ t : ℚ, t ≤ 0 → referencePower t = 21.80)
    ∧ (∀ t : ℚ, 0 < t → referencePower t = 4.77 + 4768.4 / (280 + 17.03 * t))
    ∧ |referencePower 100000 - 4.77| < 1 / 100 := by
  refine ⟨fun t1 t2 h1 h12 => referencePower_antitone t1 t2 h1 h12, ?_,
    referencePower_pos_eq, ?_⟩
  · intro t ht
    rw [referencePower, if_pos ht]
    norm_num [CP_MODEL]
  · rw [referencePower_pos_eq 100000 (by norm_num), abs_lt]
    constructor <;> norm_num

/-- Witness for C4 at `t1 = 600`, `t2 = 1200`, `t = 0`, `t = -5`. -/
theorem referencePower_monotonicity_claim_witness :
    referencePower 600 ≥ referencePower 1200
    ∧ referencePower 0 = 21.80 ∧ referencePower (-5) = 21.80
    ∧ referencePower 1200 = 4.77 + 4768.4 / (280 + 17.03 * 1200) :=
  ⟨referencePower_monotonicity_claim.1 600 1200 (by norm_num) (by norm_num),
    referencePower_monotonicity_claim.2.1 0 (by norm_num),
    referencePower_monotonicity_claim.2.1 (-5) (by norm_num),
    referencePower_monotonicity_claim.2.2.1 1200 (by norm_num)⟩

/-! ## C5: classifier totality and boundaries -/

/-- C5: the classifier is total: `classify 150` is `suspicious`,
`classify 149.999` is `extreme`, `classify 0` and `classify (-5)` are
`easy` (fall-through), and every score lands in one of the seven table
classes, never `unknown`. -/
theorem classifier_totality_claim :
    (getDifficultyClass 150).cls = "suspicious"
    ∧ (getDifficultyClass 149.999).cls = "extreme"
    ∧ (getDifficultyClass 0).cls = "easy"
    ∧ (getDifficultyClass (-5)).cls = "easy"
    ∧ ∀ score : ℚ, (getDifficultyClass score).cls ∈
        ["suspicious", "extreme", "very-hard", "hard", "moderate", "accessible", "easy"] := by
  refine ⟨?_, ?_, ?_, ?_, ?_⟩
  · rw [getDifficultyClass_suspicious 150 (by norm_num)]
  · rw [getDifficultyClass_extreme 149.999 (by norm_num) (by norm_num)]
  · rw [getDifficultyClass_easy 0 (by norm_num)]
  · rw [getDifficultyClass_easy (-5) (by norm_num)]
  · intro score
    simp only [getDifficultyClass]
    cases hf : DIFFICULTY_CLASSES.find? (fun level => level.min ≤ score) with
    | none =>
        simp [DIFFICULTY_CLASSES, List.getLast, bandInfo]
    | some level =>
        have hmem := List.mem_of_find?_eq_some hf
        simp only [DIFFICULTY_CLASSES, List.mem_cons, List.not_mem_nil, or_false] at hmem
        rcases hmem with rfl | rfl | rfl | rfl | rfl | rfl | rfl <;> simp [bandInfo]

/-! ## C6: duration parsing by format class -/

/-- C6 counterexample: the claim says `"5:3a"` is invalid, but
`parseInt("3a", 10)` is 3, so the code returns 303. -/
theorem parse_format_counterexample :
    parseKomTime "5:3a" = some 303 ∧ ¬ parseKomTime "5:3a" = none := by
  refine ⟨by decide, by decide⟩

/-- C6 amended: the format table holds except for `"5:3a"`: a
colon-delimited component is parsed by `parseInt`, which takes the leading
digit prefix and ignores trailing characters, so `"5:3a"` yields 303; a
component is invalid only when it has no leading integer, e.g. `"5:a3"`. -/
theorem parse_format_amended :
    parseKomTime "45" = some 45 ∧ parseKomTime "45s" = some 45
    ∧ parseKomTime "5:30" = some 330 ∧ parseKomTime "1:23:45" = some 5025
    ∧ parseKomTime "" = none ∧ parseKomTime "—" = none
    ∧ parseKomTime "abc" = none
    ∧ parseKomTime "5:3a" = some 303 ∧ parseKomTime "5:a3" = none := by
  refine ⟨by decide, by decide, by decide, by decide, by decide, by decide,
    by decide, by decide, by decide⟩

/-! ## Orchestrator helper lemmas -/

theorem parseKomTime_empty : parseKomTime "" = none := rfl

/-- When all four validations pass, the orchestrator reaches the scoring
path. -/
theorem calculateSegmentDifficulty_valid (d e m : ℚ) (s : String) (t : ℤ)
    (hd : 0 < d) (hm : 0 < m) (hp : parseKomTime s = some t) (ht : 0 < t) :
    calculateSegmentDifficulty (some d) (some e) (some s) (some m) =
      scoreResult d e t m := by
  have hs : ¬ s = "" := by
    intro h
    rw [h, parseKomTime_empty] at hp
    exact Option.noConfusion hp
  rw [calculateSegmentDifficulty, if_neg]
  · simp only [Option.getD_some, hp, intFalsyOrNonpos]
    rw [if_neg]
    simp only [decide_eq_true_eq]
    omega
  · simp only [numFalsyOrNonpos, Option.isNone_some, strFalsy, decide_eq_true_eq,
      Bool.false_eq_true, false_or]
    push_neg
    exact ⟨hd, hm, hs⟩

/-- Exact score of the §8.5 end-to-end example. -/
theorem e2e_score_value :
    (calculateRequiredW 5000 300 ((1200 : ℤ) : ℚ) 75).P_totalWkg
      / referencePower ((1200 : ℤ) : ℚ) * 100 = 5776760180 / 92595447 := by
  have h12 : ((1200 : ℤ) : ℚ) = 1200 := by norm_num
  rw [h12, referencePower_pos_eq 1200 (by norm_num)]
  simp only [calculateRequiredW, PHYSICS]
  norm_num

/-- Exact absolute power of the §8.5 end-to-end example. -/
theorem e2e_power_value :
    (calculateRequiredW 5000 300 ((1200 : ℤ) : ℚ) 75).P_total = 2063527 / 8820 := by
  have h12 : ((1200 : ℤ) : ℚ) = 1200 := by norm_num
  rw [h12]
  simp only [calculateRequiredW, PHYSICS]
  norm_num

/-- Exact per-kilogram power of the §8.5 end-to-end example. -/
theorem e2e_powerkg_value :
    (calculateRequiredW 5000 300 ((1200 : ℤ) : ℚ) 75).P_totalWkg = 2063527 / 661500 := by
  have h12 : ((1200 : ℤ) : ℚ) = 1200 := by norm_num
  rw [h12]
  simp only [calculateRequiredW, PHYSICS]
  norm_num

/-! ## C1: the required-power formula chain -/

/-- C1: for every scoreable input the orchestrator computes
`requiredPower = (totalMass g v grade + totalMass g v 0.004
+ 0.5·1.2·0.28·v³)/0.98` with `v = distance/t`, `grade = elevation/distance`,
`totalMass = riderMass + 8`; `requiredPowerPerKg = requiredPower/riderMass`;
`difficultyScore = requiredPowerPerKg / referencePower t * 100`.  (The
output fields carry the source's names `komPower`/`komPowerWKg`.) -/
theorem required_power_formula_claim (d e m : ℚ) (s : String) (t : ℤ)
    (hd : 0 < d) (hm : 0 < m) (hp : parseKomTime s = some t) (ht : 0 < t) :
    calculateSegmentDifficulty (some d) (some e) (some s) (some m) =
      (let speed : ℚ := d / (t : ℚ)
       let grade : ℚ := e / d
       let totalMass : ℚ := m + 8
       let requiredPower : ℚ := (totalMass * 9.81 * speed * grade
          + totalMass * 9.81 * speed * 0.004
          + 0.5 * 1.2 * 0.28 * speed ^ 3) / 0.98
       let requiredPowerPerKg : ℚ := requiredPower / m
       let score : ℚ := requiredPowerPerKg / referencePower (t : ℚ) * 100
       { komPower := some requiredPower, komPowerWKg := some requiredPowerPerKg,
         difficultyScore := some score,
         difficultyClass := getDifficultyClass score,
         isValid := true }) := by
  rw [calculateSegmentDifficulty_valid d e m s t hd hm hp ht]
  have hP : (calculateRequiredW d e ((t : ℤ) : ℚ) m).P_total =
      ((m + 8) * 9.81 * (d / ((t : ℤ) : ℚ)) * (e / d)
        + (m + 8) * 9.81 * (d / ((t : ℤ) : ℚ)) * 0.004
        + 0.5 * 1.2 * 0.28 * (d / ((t : ℤ) : ℚ)) ^ 3) / 0.98 := by
    simp only [calculateRequiredW, PHYSICS]
    ring
  have hPkg : (calculateRequiredW d e ((t : ℤ) : ℚ) m).P_totalWkg =
      (((m + 8) * 9.81 * (d / ((t : ℤ) : ℚ)) * (e / d)
        + (m + 8) * 9.81 * (d / ((t : ℤ) : ℚ)) * 0.004
        + 0.5 * 1.2 * 0.28 * (d / ((t : ℤ) : ℚ)) ^ 3) / 0.98) / m := by
    simp only [calculateRequiredW, PHYSICS]
    ring
  simp only [scoreResult, hP, hPkg]

/-- Witness for C1 at the end-to-end example input. -/
theorem required_power_formula_claim_witness :
    calculateSegmentDifficulty (some 5000) (some 300) (some "20:00") (some 75) =
      (let speed : ℚ := 5000 / ((1200 : ℤ) : ℚ)
       let grade : ℚ := 300 / 5000
       let totalMass : ℚ := 75 + 8
       let requiredPower : ℚ := (totalMass * 9.81 * speed * grade
          + totalMass * 9.81 * speed * 0.004
          + 0.5 * 1.2 * 0.28 * speed ^ 3) / 0.98
       let requiredPowerPerKg : ℚ := requiredPower / 75
       let score : ℚ := requiredPowerPerKg / referencePower ((1200 : ℤ) : ℚ) * 100
       { komPower := some requiredPower, komPowerWKg := some requiredPowerPerKg,
         difficultyScore := some score,
         difficultyClass := getDifficultyClass score,
         isValid := true }) :=
  required_power_formula_claim 5000 300 75 "20:00" 1200 (by norm_num) (by norm_num)
    (by decide) (by norm_num)

/-! ## C2: the end-to-end example (corrected) -/

/-- C2 counterexample: at the §8.5 example input the class is
`accessible`, not `moderate` (and the exact requiredPower is
2063527/8820 ≈ 233.96 W, not ≈ 235.5 W). -/
theorem e2e_example_counterexample :
    (calculateSegmentDifficulty (some 5000) (some 300) (some "20:00")
        (some 75)).difficultyClass.cls = "accessible"
    ∧ ¬ (calculateSegmentDifficulty (some 5000) (some 300) (some "20:00")
        (some 75)).difficultyClass.cls = "moderate" := by
  have h := calculateSegmentDifficulty_valid 5000 300 75 "20:00" 1200
    (by norm_num) (by norm_num) (by decide) (by norm_num)
  have hclass : (scoreResult 5000 300 1200 75).difficultyClass =
      { cls := "accessible", label := "Machbar", color := "#16a34a" } := by
    simp only [scoreResult]
    rw [e2e_score_value, getDifficultyClass_accessible _ (by norm_num) (by norm_num)]
  rw [h, hclass]
  exact ⟨rfl, by decide⟩

/-- C2 amended: the example input yields exactly
`requiredPower = 2063527/8820` (between 233.9 and 234 W),
`requiredPowerPerKg = 2063527/661500` (between 3.11 and 3.12 W/kg),
`difficultyScore = 5776760180/92595447` (between 62.3 and 62.5) and class
`accessible`. -/
theorem e2e_example_amended :
    calculateSegmentDifficulty (some 5000) (some 300) (some "20:00") (some 75) =
      { komPower := some (2063527 / 8820), komPowerWKg := some (2063527 / 661500),
        difficultyScore := some (5776760180 / 92595447),
        difficultyClass := { cls := "accessible", label := "Machbar", color := "#16a34a" },
        isValid := true }
    ∧ (233.9 : ℚ) < 2063527 / 8820 ∧ (2063527 / 8820 : ℚ) < 234
    ∧ (3.11 : ℚ) < 2063527 / 661500 ∧ (2063527 / 661500 : ℚ) < 3.12
    ∧ (62.3 : ℚ) < 5776760180 / 92595447 ∧ (5776760180 / 92595447 : ℚ) < 62.5 := by
  refine ⟨?_, by norm_num, by norm_num, by norm_num, by norm_num, by norm_num,
    by norm_num⟩
  rw [calculateSegmentDifficulty_valid 5000 300 75 "20:00" 1200
    (by norm_num) (by norm_num) (by decide) (by norm_num)]
  simp only [scoreResult]
  rw [e2e_score_value, e2e_power_value, e2e_powerkg_value,
    getDifficultyClass_accessible _ (by norm_num) (by norm_num)]

/-! ## C3: validity gating and the invalid sentinel -/

/-- C3: the orchestrator returns exactly the invalid sentinel whenever the
input is not scoreable (distance missing or ≤ 0, elevation nullish, rider
mass missing or ≤ 0, KOM time missing/empty/unparseable/non-positive), and
otherwise returns `isValid := true` with all numeric fields non-null. -/
theorem validity_gating_claim (distance elevation : Option ℚ)
    (komTime : Option String) (riderMass : Option ℚ) :
    (¬ ((∃ d, distance = some d ∧ 0 < d) ∧ elevation.isSome = true
        ∧ (∃ m, riderMass = some m ∧ 0 < m)
        ∧ (∃ s t, komTime = some s ∧ parseKomTime s = some t ∧ 0 < t)) →
      calculateSegmentDifficulty distance elevation komTime riderMass =
        { komPower := none, komPowerWKg := none, difficultyScore := none,
          difficultyClass := { cls := "unknown", label := "—", color := "#9ca3af" },
          isValid := false })
    ∧ (((∃ d, distance = some d ∧ 0 < d) ∧ elevation.isSome = true
        ∧ (∃ m, riderMass = some m ∧ 0 < m)
        ∧ (∃ s t, komTime = some s ∧ parseKomTime s = some t ∧ 0 < t)) →
      (calculateSegmentDifficulty distance elevation komTime riderMass).isValid = true
      ∧ (calculateSegmentDifficulty distance elevation komTime riderMass).komPower.isSome = true
      ∧ (calculateSegmentDifficulty distance elevation komTime riderMass).komPowerWKg.isSome = true
      ∧ (calculateSegmentDifficulty distance elevation komTime riderMass).difficultyScore.isSome = true) := by
  constructor
  · intro hbad
    rcases distance with _ | d
    · simp [calculateSegmentDifficulty, numFalsyOrNonpos, defaultResult]
    rcases elevation with _ | e
    · simp [calculateSegmentDifficulty, defaultResult]
    rcases riderMass with _ | m
    · simp [calculateSegmentDifficulty, numFalsyOrNonpos, defaultResult]
    rcases komTime with _ | s
    · simp [calculateSegmentDifficulty, strFalsy, defaultResult]
    by_cases hd : d ≤ 0
    · simp [calculateSegmentDifficulty, numFalsyOrNonpos, hd, defaultResult]
    by_cases hm : m ≤ 0
    · simp [calculateSegmentDifficulty, numFalsyOrNonpos, hm, not_le.mp hd, defaultResult]
    by_cases hs : s = ""
    · simp [calculateSegmentDifficulty, strFalsy, hs, numFalsyOrNonpos,
        not_le.mp hd, not_le.mp hm, defaultResult]
    rcases hp : parseKomTime s with _ | tt
    · rw [calculateSegmentDifficulty, if_neg]
      · simp only [Option.getD_some, hp, intFalsyOrNonpos]
        rfl
      · simp only [numFalsyOrNonpos, Option.isNone_some, strFalsy, decide_eq_true_eq,
          Bool.false_eq_true, false_or]
        push_neg
        exact ⟨not_le.mp hd, not_le.mp hm, hs⟩
    by_cases htt : tt ≤ 0
    · rw [calculateSegmentDifficulty, if_neg]
      · simp only [Option.getD_some, hp, intFalsyOrNonpos]
        rw [if_pos]
        · rfl
        · simp only [decide_eq_true_eq]
          exact htt
      · simp only [numFalsyOrNonpos, Option.isNone_some, strFalsy, decide_eq_true_eq,
          Bool.false_eq_true, false_or]
        push_neg
        exact ⟨not_le.mp hd, not_le.mp hm, hs⟩
    · exact absurd ⟨⟨d, rfl, not_le.mp hd⟩, rfl, ⟨m, rfl, not_le.mp hm⟩,
        ⟨s, tt, rfl, hp, not_le.mp htt⟩⟩ hbad
  · rintro ⟨⟨d, rfl, hd⟩, hel, ⟨m, rfl, hm⟩, ⟨s, t, rfl, hp, ht⟩⟩
    rcases elevation with _ | e
    · exact absurd hel (by simp)
    rw [calculateSegmentDifficulty_valid d e m s t hd hm hp ht]
    simp [scoreResult]

/-- Witness for C3 at a concrete scoreable input. -/
theorem validity_gating_claim_witness :
    (calculateSegmentDifficulty (some 5000) (some 300) (some "20:00")
        (some 75)).isValid = true
    ∧ (calculateSegmentDifficulty (some 5000) (some 300) (some "20:00")
        (some 75)).komPower.isSome = true
    ∧ (calculateSegmentDifficulty (some 5000) (some 300) (some "20:00")
        (some 75)).komPowerWKg.isSome = true
    ∧ (calculateSegmentDifficulty (some 5000) (some 300) (some "20:00")
        (some 75)).difficultyScore.isSome = true :=
  (validity_gating_claim (some 5000) (some 300) (some "20:00") (some 75)).2
    ⟨⟨5000, rfl, by norm_num⟩, rfl, ⟨75, rfl, by norm_num⟩,
      ⟨"20:00", 1200, rfl, by decide, by norm_num⟩⟩

/-! ## C8: exception behaviour (corrected) -/

/-- C8 counterexample: with otherwise-valid inputs and `bestKnownTime`
supplied as the number 1200, the call throws a TypeError instead of
returning a result. -/
theorem no_throw_counterexample :
    (calculateSegmentDifficultyDyn (some 5000) (some 300)
        (JSTimeVal.vnum 1200) (some 75)).isOk = false := by decide

/-- C8 amended: the orchestrator never throws when `bestKnownTime` is a
string, `null` or `undefined` (invalidity is reported via `isValid`), and
the number 0 is caught by the falsiness guard; but a non-zero numeric
`bestKnownTime` that passes validation throws a TypeError from calling
`trim` on a number. -/
theorem no_throw_amended :
    (∀ (distance elevation riderMass : Option ℚ) (s : String),
      (calculateSegmentDifficultyDyn distance elevation (JSTimeVal.vstr s)
        riderMass).isOk = true)
    ∧ (∀ distance elevation riderMass : Option ℚ,
      (calculateSegmentDifficultyDyn distance elevation JSTimeVal.vnull
        riderMass).isOk = true
      ∧ (calculateSegmentDifficultyDyn distance elevation JSTimeVal.vundef
        riderMass).isOk = true
      ∧ (calculateSegmentDifficultyDyn distance elevation (JSTimeVal.vnum 0)
        riderMass).isOk = true)
    ∧ calculateSegmentDifficultyDyn (some 5000) (some 300)
        (JSTimeVal.vnum 1200) (some 75)
      = Except.error "TypeError: timeStr.trim is not a function" := by
  refine ⟨?_, ?_, rfl⟩
  · intro d e m s
    rw [calculateSegmentDifficultyDyn]
    split
    · rfl
    · simp only [parseKomTimeDyn]
      split <;> rfl
  · intro d e m
    refine ⟨?_, ?_, ?_⟩ <;>
      simp [calculateSegmentDifficultyDyn, jsTimeFalsy, Except.isOk, Except.toBool]

/-! ## C9: monotonicity in elevation, downhill behaviour -/

/-- Strict monotonicity of the absolute power in the elevation argument. -/
theorem calculateRequiredW_mono_elev (d t m e1 e2 : ℚ)
    (hd : 0 < d) (ht : 0 < t) (hm : 0 < m) (he : e1 < e2) :
    (calculateRequiredW d e1 t m).P_total < (calculateRequiredW d e2 t m).P_total := by
  simp only [calculateRequiredW, PHYSICS]
  have hv : 0 < d / t := div_pos hd ht
  have hM : (0 : ℚ) < m + 8 := by linarith
  have h1 : e1 / d < e2 / d := by gcongr
  have h2 : (0 : ℚ) < (m + 8) * 9.81 * (d / t) := by positivity
  have h3 := mul_lt_mul_of_pos_left h1 h2
  have h4 := add_lt_add_right (add_lt_add_right h3 ((m + 8) * 9.81 * (d / t) * 0.004))
    (0.5 * 1.2 * 0.28 * (d / t) * (d / t) * (d / t))
  have h98 : (0 : ℚ) < 0.98 := by norm_num
  exact div_lt_div_of_pos_right h4 h98

/-- The downhill example is strictly below zero. -/
theorem downhill_power_neg :
    (calculateRequiredW 5000 (-100) ((1200 : ℤ) : ℚ) 75).P_total < 0 := by
  have h12 : ((1200 : ℤ) : ℚ) = 1200 := by norm_num
  rw [h12]
  simp only [calculateRequiredW, PHYSICS]
  norm_num

/-- The downhill example is strictly below the flat example. -/
theorem downhill_power_lt_flat :
    (calculateRequiredW 5000 (-100) ((1200 : ℤ) : ℚ) 75).P_total
      < (calculateRequiredW 5000 0 ((1200 : ℤ) : ℚ) 75).P_total := by
  have h12 : ((1200 : ℤ) : ℚ) = 1200 := by norm_num
  rw [h12]
  simp only [calculateRequiredW, PHYSICS]
  norm_num

/-- C9: requiredPower is strictly monotone in elevationGain (distance,
duration and rider mass fixed); elevationGain = -100 over 5000 m in 1200 s
yields a negative requiredPower, strictly below the flat case, not clamped
to zero, and the result is still valid. -/
theorem downhill_claim :
    (∀ d t m e1 e2 : ℚ, 0 < d → 0 < t → 0 < m → e1 < e2 →
      (calculateRequiredW d e1 t m).P_total < (calculateRequiredW d e2 t m).P_total)
    ∧ (calculateSegmentDifficulty (some 5000) (some (-100)) (some "20:00")
        (some 75)).isValid = true
    ∧ (calculateSegmentDifficulty (some 5000) (some (-100)) (some "20:00")
        (some 75)).komPower.getD 0 < 0
    ∧ (calculateSegmentDifficulty (some 5000) (some (-100)) (some "20:00")
        (some 75)).komPower.getD 0
      < (calculateSegmentDifficulty (some 5000) (some 0) (some "20:00")
        (some 75)).komPower.getD 0 := by
  have hdown := calculateSegmentDifficulty_valid 5000 (-100) 75 "20:00" 1200
    (by norm_num) (by norm_num) (by decide) (by norm_num)
  have hflat := calculateSegmentDifficulty_valid 5000 0 75 "20:00" 1200
    (by norm_num) (by norm_num) (by decide) (by norm_num)
  refine ⟨fun d t m e1 e2 hd ht hm he =>
    calculateRequiredW_mono_elev d t m e1 e2 hd ht hm he, ?_, ?_, ?_⟩
  · rw [hdown]
    rfl
  · rw [hdown]
    simp only [scoreResult, Option.getD_some]
    exact downhill_power_neg
  · rw [hdown, hflat]
    simp only [scoreResult, Option.getD_some]
    exact downhill_power_lt_flat

/-- Witness for C9's monotonicity at a concrete input. -/
theorem downhill_claim_witness :
    (calculateRequiredW 5000 0 1200 75).P_total
      < (calculateRequiredW 5000 300 1200 75).P_total :=
  downhill_claim.1 5000 1200 75 0 300 (by norm_num) (by norm_num) (by norm_num)
    (by norm_num)

/-! ## C10: wrapper input normalization -/

/-- C10: `getSegmentDifficulty` normalizes its record exactly as the claim
says: distance prefers a truthy `details.distance` over `data.distance`;
elevation is `data.elev_difference` when non-nullish, else
`details.total_elevation_gain`, else 0 (so a record missing both elevation
fields is never rejected for missing elevation); the KOM time comes from
`details.xoms.kom`. -/
theorem wrapper_normalization_claim (seg : Segment) (m : Option ℚ) :
    (getSegmentDifficulty seg m = calculateSegmentDifficulty
      (jsOrNum (seg.details.bind SegmentDetails.distance)
        (seg.data.bind SegmentData.distance))
      (jsNullishNum (jsNullishNum (seg.data.bind SegmentData.elev_difference)
        (seg.details.bind SegmentDetails.total_elevation_gain)) (some 0))
      ((seg.details.bind SegmentDetails.xoms).bind SegmentXoms.kom) m)
    ∧ (∀ dd, seg.details.bind SegmentDetails.distance = some dd → ¬ dd = 0 →
      getSegmentDifficulty seg m = calculateSegmentDifficulty (some dd)
        (jsNullishNum (jsNullishNum (seg.data.bind SegmentData.elev_difference)
          (seg.details.bind SegmentDetails.total_elevation_gain)) (some 0))
        ((seg.details.bind SegmentDetails.xoms).bind SegmentXoms.kom) m)
    ∧ ((seg.details.bind SegmentDetails.distance = none
        ∨ seg.details.bind SegmentDetails.distance = some 0) →
      getSegmentDifficulty seg m = calculateSegmentDifficulty
        (seg.data.bind SegmentData.distance)
        (jsNullishNum (jsNullishNum (seg.data.bind SegmentData.elev_difference)
          (seg.details.bind SegmentDetails.total_elevation_gain)) (some 0))
        ((seg.details.bind SegmentDetails.xoms).bind SegmentXoms.kom) m)
    ∧ (∀ e, seg.data.bind SegmentData.elev_difference = some e →
      getSegmentDifficulty seg m = calculateSegmentDifficulty
        (jsOrNum (seg.details.bind SegmentDetails.distance)
          (seg.data.bind SegmentData.distance))
        (some e)
        ((seg.details.bind SegmentDetails.xoms).bind SegmentXoms.kom) m)
    ∧ (seg.data.bind SegmentData.elev_difference = none →
      ∀ e, seg.details.bind SegmentDetails.total_elevation_gain = some e →
      getSegmentDifficulty seg m = calculateSegmentDifficulty
        (jsOrNum (seg.details.bind SegmentDetails.distance)
          (seg.data.bind SegmentData.distance))
        (some e)
        ((seg.details.bind SegmentDetails.xoms).bind SegmentXoms.kom) m)
    ∧ (seg.data.bind SegmentData.elev_difference = none →
      seg.details.bind SegmentDetails.total_elevation_gain = none →
      getSegmentDifficulty seg m = calculateSegmentDifficulty
        (jsOrNum (seg.details.bind SegmentDetails.distance)
          (seg.data.bind SegmentData.distance))
        (some 0)
        ((seg.details.bind SegmentDetails.xoms).bind SegmentXoms.kom) m)
    ∧ (jsNullishNum (jsNullishNum (seg.data.bind SegmentData.elev_difference)
        (seg.details.bind SegmentDetails.total_elevation_gain)) (some 0)).isSome
        = true := by
  refine ⟨rfl, ?_, ?_, ?_, ?_, ?_, ?_⟩
  · intro dd h hne
    rw [getSegmentDifficulty, h]
    simp only [jsOrNum, if_neg hne]
  · intro h
    rcases h with h | h <;>
      · rw [getSegmentDifficulty, h]
        simp [jsOrNum]
  · intro e h
    rw [getSegmentDifficulty, h]
    simp only [jsNullishNum]
  · intro h e h2
    rw [getSegmentDifficulty, h, h2]
    simp only [jsNullishNum]
  · intro h h2
    rw [getSegmentDifficulty, h, h2]
    simp only [jsNullishNum]
  · rcases seg.data.bind SegmentData.elev_difference with _ | e
    · rcases seg.details.bind SegmentDetails.total_elevation_gain with _ | e2 <;>
        simp [jsNullishNum]
    · simp [jsNullishNum]

/-- Witness for C10 at a concrete record: `details.distance` (truthy) wins
over `data.distance`, and with both elevation fields missing the record is
scored with elevation 0 rather than rejected. -/
theorem wrapper_normalization_claim_witness :
    getSegmentDifficulty
        { data := some { distance := some 4000, elev_difference := none },
          details := some { distance := some 5000,
                            total_elevation_gain := none,
                            xoms := some { kom := some "20:00" } } } (some 75)
      = calculateSegmentDifficulty
          (jsOrNum (some 5000) (some 4000)) (some 0) (some "20:00") (some 75) :=
  (wrapper_normalization_claim
    { data := some { distance := some 4000, elev_difference := none },
      details := some { distance := some 5000,
                        total_elevation_gain := none,
                        xoms := some { kom := some "20:00" } } } (some 75)).2.2.2.2.2.1
    rfl rfl

/-! ## Parser sign and zero lemmas (for C7) -/

theorem jsParseInt_nil : jsParseInt [] = none := rfl

theorem digit_not_space (c : Char) (h : c.isDigit = true) : isJsSpace c = false := by
  rw [isJsSpace, Char.isWhitespace]
  by_contra hw
  rw [Bool.not_eq_false, Bool.or_eq_true, Bool.or_eq_true, Bool.or_eq_true] at hw
  rcases hw with ((h1 | h1) | h1) | h1 <;>
    · rw [decide_eq_true_eq] at h1
      subst h1
      exact absurd h (by decide)

theorem digit_ne_dash (c : Char) (h : c.isDigit = true) : ¬ c = '-' :=
  fun hc => absurd (hc ▸ h) (by decide)

theorem digit_ne_plus (c : Char) (h : c.isDigit = true) : ¬ c = '+' :=
  fun hc => absurd (hc ▸ h) (by decide)

theorem dropWhile_eq_self_of_none (l : List Char)
    (h : ∀ c ∈ l, isJsSpace c = false) : l.dropWhile isJsSpace = l := by
  cases l with
  | nil => rfl
  | cons c rest =>
      rw [List.dropWhile_cons, if_neg]
      rw [h c (List.mem_cons_self c rest)]
      simp

theorem jsTrim_subset (cs : List Char) : ∀ c ∈ jsTrim cs, c ∈ cs := by
  intro c hc
  rw [jsTrim, List.mem_reverse] at hc
  have h1 := (List.dropWhile_sublist isJsSpace).subset hc
  rw [List.mem_reverse] at h1
  exact (List.dropWhile_sublist isJsSpace).subset h1

theorem jsTrim_eq_self (cs : List Char)
    (h : ∀ c ∈ cs, isJsSpace c = false) : jsTrim cs = cs := by
  rw [jsTrim, dropWhile_eq_self_of_none cs h, dropWhile_eq_self_of_none _
    (fun c hc => h c (List.mem_reverse.mp hc)), List.reverse_reverse]

theorem foldl_digits_eq_zero (ds : List Char) : ∀ a : ℕ,
    ds.foldl (fun x c => 10 * x + (c.toNat - 48)) a = 0 →
    a = 0 ∧ ∀ c ∈ ds, c.toNat - 48 = 0 := by
  induction ds with
  | nil =>
      intro a h
      exact ⟨h, fun c hc => absurd hc (List.not_mem_nil c)⟩
  | cons c t ih =>
      intro a h
      rw [List.foldl_cons] at h
      obtain ⟨h1, h2⟩ := ih _ h
      refine ⟨by omega, ?_⟩
      intro x hx
      rcases List.mem_cons.mp hx with rfl | hx
      · omega
      · exact h2 x hx

theorem char_digit_sub48_eq_zero (c : Char) (h : c.isDigit = true)
    (h2 : c.toNat - 48 = 0) : c = '0' := by
  simp only [Char.isDigit, Bool.and_eq_true, decide_eq_true_eq] at h
  apply Char.ext
  apply UInt32.toNat.inj
  have h1 : 48 ≤ c.toNat := by
    have := h.1
    simpa [Char.le_def, Char.toNat] using this
  show c.val.toNat = ('0' : Char).val.toNat
  have h48 : c.toNat = 48 := by omega
  simpa [Char.toNat] using h48

theorem digitsVal_zero_all_zero (ds : List Char)
    (hd : ∀ c ∈ ds, c.isDigit = true) (h : digitsVal ds = 0) :
    ∀ c ∈ ds, c = '0' := by
  intro c hc
  obtain ⟨_, h2⟩ := foldl_digits_eq_zero ds 0 h
  exact char_digit_sub48_eq_zero c (hd c hc) (h2 c hc)

theorem jsParseInt_nonneg (cs : List Char) (hm : '-' ∉ cs) (n : ℤ)
    (h : jsParseInt cs = some n) : 0 ≤ n := by
  simp only [jsParseInt] at h
  have hhead : ¬ (cs.dropWhile isJsSpace).head? = some '-' := by
    intro hc
    apply hm
    apply (List.dropWhile_sublist isJsSpace).subset
    rcases hb : cs.dropWhile isJsSpace with _ | ⟨c, rest⟩
    · rw [hb] at hc
      exact absurd hc (by simp)
    · rw [hb, List.head?_cons] at hc
      rw [← Option.some.inj hc]
      exact List.mem_cons_self c rest
  rw [if_neg hhead] at h
  by_cases hp : (cs.dropWhile isJsSpace).head? = some '+'
  · rw [if_pos hp] at h
    rcases hd : digitPrefixVal (cs.dropWhile isJsSpace).tail with _ | v
    · rw [hd] at h
      exact absurd h (by simp)
    · rw [hd, Option.map_some'] at h
      have hv : Int.ofNat v = n := Option.some.inj h
      rw [← hv]
      exact Int.ofNat_nonneg v
  · rw [if_neg hp] at h
    rcases hd : digitPrefixVal (cs.dropWhile isJsSpace) with _ | v
    · rw [hd] at h
      exact absurd h (by simp)
    · rw [hd, Option.map_some'] at h
      have hv : Int.ofNat v = n := Option.some.inj h
      rw [← hv]
      exact Int.ofNat_nonneg v

theorem jsParseInt_digits (cs : List Char) (hne : ¬ cs = [])
    (hd : ∀ c ∈ cs, c.isDigit = true) :
    jsParseInt cs = some (Int.ofNat (digitsVal cs)) := by
  have hns : ∀ c ∈ cs, isJsSpace c = false := fun c hc => digit_not_space c (hd c hc)
  cases cs with
  | nil => exact absurd rfl hne
  | cons c rest =>
      simp only [jsParseInt]
      rw [dropWhile_eq_self_of_none _ hns]
      have h1 : ¬ ((c :: rest).head? = some '-') := by
        rw [List.head?_cons]
        intro hc
        exact digit_ne_dash c (hd c (List.mem_cons_self c rest)) (Option.some.inj hc)
      have h2 : ¬ ((c :: rest).head? = some '+') := by
        rw [List.head?_cons]
        intro hc
        exact digit_ne_plus c (hd c (List.mem_cons_self c rest)) (Option.some.inj hc)
      rw [if_neg h1, if_neg h2]
      simp only [digitPrefixVal]
      rw [List.takeWhile_eq_self_iff.mpr hd]
      rw [if_neg (by simp)]
      rfl

theorem splitOnChar_subset (sep : Char) :
    ∀ (cs : List Char), ∀ part ∈ splitOnChar sep cs, ∀ c ∈ part, c ∈ cs := by
  intro cs
  induction cs with
  | nil =>
      intro part hp c hc
      simp only [splitOnChar, List.mem_singleton] at hp
      subst hp
      exact absurd hc (List.not_mem_nil c)
  | cons a rest ih =>
      intro part hp c hc
      simp only [splitOnChar] at hp
      by_cases ha : a = sep
      · rw [if_pos ha] at hp
        rcases List.mem_cons.mp hp with rfl | hp
        · exact absurd hc (List.not_mem_nil c)
        · exact List.mem_cons_of_mem a (ih part hp c hc)
      · rw [if_neg ha] at hp
        rcases hr : splitOnChar sep rest with _ | ⟨h1, t1⟩
        · rw [hr] at hp
          simp only [List.mem_singleton] at hp
          subst hp
          rw [List.mem_singleton.mp hc]
          exact List.mem_cons_self a rest
        · rw [hr] at hp
          rcases List.mem_cons.mp hp with rfl | hp
          · rcases List.mem_cons.mp hc with rfl | hc
            · exact List.mem_cons_self c rest
            · exact List.mem_cons_of_mem a
                (ih h1 (by rw [hr]; exact List.mem_cons_self h1 t1) c hc)
          · exact List.mem_cons_of_mem a
              (ih part (by rw [hr]; exact List.mem_cons_of_mem h1 hp) c hc)

theorem splitOnChar_sep_not_mem (sep : Char) :
    ∀ (cs : List Char), ∀ part ∈ splitOnChar sep cs, sep ∉ part := by
  intro cs
  induction cs with
  | nil =>
      intro part hp
      simp only [splitOnChar, List.mem_singleton] at hp
      subst hp
      exact List.not_mem_nil sep
  | cons a rest ih =>
      intro part hp
      simp only [splitOnChar] at hp
      by_cases ha : a = sep
      · rw [if_pos ha] at hp
        rcases List.mem_cons.mp hp with rfl | hp
        · exact List.not_mem_nil sep
        · exact ih part hp
      · rw [if_neg ha] at hp
        rcases hr : splitOnChar sep rest with _ | ⟨h1, t1⟩
        · rw [hr] at hp
          simp only [List.mem_singleton] at hp
          subst hp
          intro hc
          exact ha (List.mem_singleton.mp hc).symm
        · rw [hr] at hp
          rcases List.mem_cons.mp hp with rfl | hp
          · intro hc
            rcases List.mem_cons.mp hc with hc | hc
            · exact ha hc.symm
            · exact ih h1 (by rw [hr]; exact List.mem_cons_self h1 t1) hc
          · exact ih part (by rw [hr]; exact List.mem_cons_of_mem h1 hp)

theorem splitOnChar_cover (sep : Char) :
    ∀ (cs : List Char), ∀ c ∈ cs, ¬ c = sep →
      ∃ part ∈ splitOnChar sep cs, c ∈ part := by
  intro cs
  induction cs with
  | nil =>
      intro c hc
      exact absurd hc (List.not_mem_nil c)
  | cons a rest ih =>
      intro c hc hcs
      rcases List.mem_cons.mp hc with rfl | hc
      · simp only [splitOnChar, if_neg hcs]
        rcases hr : splitOnChar sep rest with _ | ⟨h1, t1⟩
        · exact ⟨[c], List.mem_singleton_self [c], List.mem_singleton_self c⟩
        · exact ⟨c :: h1, List.mem_cons_self (c :: h1) t1, List.mem_cons_self c h1⟩
      · obtain ⟨part, hp, hcp⟩ := ih c hc hcs
        by_cases ha : a = sep
        · refine ⟨part, ?_, hcp⟩
          simp only [splitOnChar, if_pos ha]
          exact List.mem_cons_of_mem [] hp
        · simp only [splitOnChar, if_neg ha]
          rcases hr : splitOnChar sep rest with _ | ⟨h1, t1⟩
          · rw [hr] at hp
            exact absurd hp (List.not_mem_nil part)
          · rw [hr] at hp
            rcases List.mem_cons.mp hp with rfl | hp
            · exact ⟨a :: part, List.mem_cons_self (a :: part) t1,
                List.mem_cons_of_mem a hcp⟩
            · exact ⟨part, List.mem_cons_of_mem (a :: h1) hp, hcp⟩

theorem map_eq_pair (f : List Char → Option ℤ) (l : List (List Char))
    (y1 y2 : Option ℤ) (h : l.map f = [y1, y2]) :
    ∃ x1 x2, l = [x1, x2] ∧ f x1 = y1 ∧ f x2 = y2 := by
  rcases l with _ | ⟨x1, _ | ⟨x2, _ | ⟨x3, tl⟩⟩⟩
  · exact absurd h (by simp)
  · exact absurd h (by simp)
  · rw [List.map_cons, List.map_cons, List.map_nil] at h
    obtain ⟨h1, hr1⟩ := List.cons_eq_cons.mp h
    obtain ⟨h2, _⟩ := List.cons_eq_cons.mp hr1
    exact ⟨x1, x2, rfl, h1, h2⟩
  · exact absurd h (by simp)

theorem map_eq_triple (f : List Char → Option ℤ) (l : List (List Char))
    (y1 y2 y3 : Option ℤ) (h : l.map f = [y1, y2, y3]) :
    ∃ x1 x2 x3, l = [x1, x2, x3] ∧ f x1 = y1 ∧ f x2 = y2 ∧ f x3 = y3 := by
  rcases l with _ | ⟨x1, _ | ⟨x2, _ | ⟨x3, _ | ⟨x4, tl⟩⟩⟩⟩
  · exact absurd h (by simp)
  · exact absurd h (by simp)
  · exact absurd h (by simp)
  · rw [List.map_cons, List.map_cons, List.map_cons, List.map_nil] at h
    obtain ⟨h1, hr1⟩ := List.cons_eq_cons.mp h
    obtain ⟨h2, hr2⟩ := List.cons_eq_cons.mp hr1
    obtain ⟨h3, _⟩ := List.cons_eq_cons.mp hr2
    exact ⟨x1, x2, x3, rfl, h1, h2, h3⟩
  · exact absurd h (by simp)

/-- Case analysis on a successful `parseKomTime`: either the seconds
literal branch fired, or the split produced exactly two or three parsed
components. -/
theorem parseKomTime_cases (s : String) (n : ℤ) (h : parseKomTime s = some n) :
    (isSecondsLiteral (jsTrim s.toList) = true
      ∧ jsParseInt (jsTrim s.toList) = some n)
    ∨ (∃ a b, (splitOnChar ':' (jsTrim s.toList)).map jsParseInt = [some a, some b]
      ∧ n = a * 60 + b)
    ∨ (∃ a b c,
      (splitOnChar ':' (jsTrim s.toList)).map jsParseInt = [some a, some b, some c]
      ∧ n = a * 3600 + b * 60 + c) := by
  simp only [parseKomTime] at h
  by_cases h0 : s = "" ∨ s = "—"
  · rw [if_pos h0] at h
    exact absurd h (by simp)
  rw [if_neg h0] at h
  by_cases hlit : isSecondsLiteral (jsTrim s.toList) = true
  · rw [if_pos hlit] at h
    exact Or.inl ⟨hlit, h⟩
  rw [if_neg hlit] at h
  by_cases hany : ((splitOnChar ':' (jsTrim s.toList)).map jsParseInt).any
      Option.isNone = true
  · rw [if_pos hany] at h
    exact absurd h (by simp)
  rw [if_neg hany] at h
  rcases hps : (splitOnChar ':' (jsTrim s.toList)).map jsParseInt
    with _ | ⟨x1, _ | ⟨x2, _ | ⟨x3, _ | ⟨x4, tl⟩⟩⟩⟩ <;> rw [hps] at h hany
  · exact absurd h (by simp)
  · rcases x1 with _ | a
    · exact absurd (by simp : ([none] : List (Option ℤ)).any Option.isNone = true) hany
    · exact absurd h (by simp)
  · rcases x1 with _ | a
    · exact absurd (by simp : ([none, x2] : List (Option ℤ)).any Option.isNone = true) hany
    rcases x2 with _ | b
    · exact absurd (by simp : ([some a, none] : List (Option ℤ)).any Option.isNone = true) hany
    refine Or.inr (Or.inl ⟨a, b, rfl, ?_⟩)
    exact (Option.some.inj h).symm
  · rcases x1 with _ | a
    · exact absurd (by simp : ([none, x2, x3] : List (Option ℤ)).any Option.isNone = true) hany
    rcases x2 with _ | b
    · exact absurd (by simp : ([some a, none, x3] : List (Option ℤ)).any Option.isNone = true) hany
    rcases x3 with _ | c
    · exact absurd (by simp : ([some a, some b, none] : List (Option ℤ)).any Option.isNone = true) hany
    refine Or.inr (Or.inr ⟨a, b, c, rfl, ?_⟩)
    exact (Option.some.inj h).symm
  · exact absurd h (by simp)

theorem parseKomTime_nonneg (s : String) (n : ℤ) (hm : '-' ∉ s.toList)
    (h : parseKomTime s = some n) : 0 ≤ n := by
  have hmt : '-' ∉ jsTrim s.toList := fun hc => hm (jsTrim_subset s.toList _ hc)
  rcases parseKomTime_cases s n h with ⟨_, hje⟩ | ⟨a, b, hmap, rfl⟩ |
    ⟨a, b, c, hmap, rfl⟩
  · exact jsParseInt_nonneg _ hmt n hje
  · obtain ⟨p1, p2, hsp, h1, h2⟩ := map_eq_pair _ _ _ _ hmap
    have hp1 : p1 ∈ splitOnChar ':' (jsTrim s.toList) := by
      rw [hsp]; exact List.mem_cons_self p1 [p2]
    have hp2 : p2 ∈ splitOnChar ':' (jsTrim s.toList) := by
      rw [hsp]; exact List.mem_cons_of_mem p1 (List.mem_singleton_self p2)
    have ha : 0 ≤ a := jsParseInt_nonneg p1
      (fun hc => hmt (splitOnChar_subset ':' _ p1 hp1 _ hc)) a h1
    have hb : 0 ≤ b := jsParseInt_nonneg p2
      (fun hc => hmt (splitOnChar_subset ':' _ p2 hp2 _ hc)) b h2
    omega
  · obtain ⟨p1, p2, p3, hsp, h1, h2, h3⟩ := map_eq_triple _ _ _ _ _ hmap
    have hp1 : p1 ∈ splitOnChar ':' (jsTrim s.toList) := by
      rw [hsp]; exact List.mem_cons_self p1 [p2, p3]
    have hp2 : p2 ∈ splitOnChar ':' (jsTrim s.toList) := by
      rw [hsp]; exact List.mem_cons_of_mem p1 (List.mem_cons_self p2 [p3])
    have hp3 : p3 ∈ splitOnChar ':' (jsTrim s.toList) := by
      rw [hsp]
      exact List.mem_cons_of_mem p1 (List.mem_cons_of_mem p2 (List.mem_singleton_self p3))
    have ha : 0 ≤ a := jsParseInt_nonneg p1
      (fun hc => hmt (splitOnChar_subset ':' _ p1 hp1 _ hc)) a h1
    have hb : 0 ≤ b := jsParseInt_nonneg p2
      (fun hc => hmt (splitOnChar_subset ':' _ p2 hp2 _ hc)) b h2
    have hc : 0 ≤ c := jsParseInt_nonneg p3
      (fun hc => hmt (splitOnChar_subset ':' _ p3 hp3 _ hc)) c h3
    omega

/-- On digit-and-colon-only inputs a zero result forces every digit of the
literal to be `'0'`. -/
theorem parseKomTime_zero_digits (s : String) (n : ℤ)
    (halpha : ∀ c ∈ s.toList, c.isDigit = true ∨ c = ':')
    (h : parseKomTime s = some n) (hz : n = 0) :
    ∀ c ∈ s.toList, c.isDigit = true → c = '0' := by
  have hns : ∀ c ∈ s.toList, isJsSpace c = false := by
    intro c hc
    rcases halpha c hc with hdg | rfl
    · exact digit_not_space c hdg
    · decide
  have htr : jsTrim s.toList = s.toList := jsTrim_eq_self _ hns
  rcases parseKomTime_cases s n h with ⟨hlit, hje⟩ | ⟨a, b, hmap, hn⟩ |
    ⟨a, b, c0, hmap, hn⟩
  · rw [htr] at hlit hje
    have hdig : ∀ c ∈ s.toList, c.isDigit = true := by
      simp only [isSecondsLiteral] at hlit
      by_cases hcs : s.toList.getLast? = some 's'
      · have hsmem : 's' ∈ s.toList := by
          obtain ⟨hne, heq⟩ := List.mem_getLast?_eq_getLast (Option.mem_def.mpr hcs)
          rw [heq]
          exact List.getLast_mem hne
        rcases halpha 's' hsmem with hdg | hcol
        · exact absurd hdg (by decide)
        · exact absurd hcol (by decide)
      · rw [if_neg hcs, Bool.and_eq_true, List.all_eq_true] at hlit
        exact hlit.2
    have hnil : ¬ s.toList = [] := by
      intro hempty
      rw [hempty, jsParseInt_nil] at hje
      exact Option.noConfusion hje
    rw [jsParseInt_digits _ hnil hdig] at hje
    have hv : Int.ofNat (digitsVal s.toList) = n := Option.some.inj hje
    rw [hz] at hv
    have hdv : digitsVal s.toList = 0 := Int.ofNat_eq_zero.mp hv
    exact fun c hc _ => digitsVal_zero_all_zero _ hdig hdv c hc
  · rw [htr] at hmap
    obtain ⟨p1, p2, hsp, h1, h2⟩ := map_eq_pair _ _ _ _ hmap
    have hp1 : p1 ∈ splitOnChar ':' s.toList := by
      rw [hsp]; exact List.mem_cons_self p1 [p2]
    have hp2 : p2 ∈ splitOnChar ':' s.toList := by
      rw [hsp]; exact List.mem_cons_of_mem p1 (List.mem_singleton_self p2)
    have hd1 : ∀ c ∈ p1, c.isDigit = true := by
      intro c hc
      rcases halpha c (splitOnChar_subset ':' _ p1 hp1 c hc) with hdg | rfl
      · exact hdg
      · exact absurd hc (splitOnChar_sep_not_mem ':' _ p1 hp1)
    have hd2 : ∀ c ∈ p2, c.isDigit = true := by
      intro c hc
      rcases halpha c (splitOnChar_subset ':' _ p2 hp2 c hc) with hdg | rfl
      · exact hdg
      · exact absurd hc (splitOnChar_sep_not_mem ':' _ p2 hp2)
    have ha : 0 ≤ a := jsParseInt_nonneg p1
      (fun hcm => absurd (hd1 '-' hcm) (by decide)) a h1
    have hb : 0 ≤ b := jsParseInt_nonneg p2
      (fun hcm => absurd (hd2 '-' hcm) (by decide)) b h2
    have hab : a = 0 ∧ b = 0 := by omega
    have hne1 : ¬ p1 = [] := by
      intro he
      rw [he, jsParseInt_nil] at h1
      exact Option.noConfusion h1
    have hne2 : ¬ p2 = [] := by
      intro he
      rw [he, jsParseInt_nil] at h2
      exact Option.noConfusion h2
    rw [jsParseInt_digits p1 hne1 hd1] at h1
    rw [jsParseInt_digits p2 hne2 hd2] at h2
    have hv1 : Int.ofNat (digitsVal p1) = a := Option.some.inj h1
    have hv2 : Int.ofNat (digitsVal p2) = b := Option.some.inj h2
    rw [hab.1] at hv1
    rw [hab.2] at hv2
    have hz1 : digitsVal p1 = 0 := Int.ofNat_eq_zero.mp hv1
    have hz2 : digitsVal p2 = 0 := Int.ofNat_eq_zero.mp hv2
    intro c hc hcd
    obtain ⟨part, hpart, hcpart⟩ := splitOnChar_cover ':' s.toList c hc
      (fun he => absurd (he ▸ hcd) (by decide))
    rw [hsp] at hpart
    rcases List.mem_cons.mp hpart with rfl | hpart
    · exact digitsVal_zero_all_zero _ hd1 hz1 c hcpart
    · rw [List.mem_singleton.mp hpart] at hcpart
      exact digitsVal_zero_all_zero _ hd2 hz2 c hcpart
  · rw [htr] at hmap
    obtain ⟨p1, p2, p3, hsp, h1, h2, h3⟩ := map_eq_triple _ _ _ _ _ hmap
    have hp1 : p1 ∈ splitOnChar ':' s.toList := by
      rw [hsp]; exact List.mem_cons_self p1 [p2, p3]
    have hp2 : p2 ∈ splitOnChar ':' s.toList := by
      rw [hsp]; exact List.mem_cons_of_mem p1 (List.mem_cons_self p2 [p3])
    have hp3 : p3 ∈ splitOnChar ':' s.toList := by
      rw [hsp]
      exact List.mem_cons_of_mem p1
        (List.mem_cons_of_mem p2 (List.mem_singleton_self p3))
    have hd1 : ∀ c ∈ p1, c.isDigit = true := by
      intro c hc
      rcases halpha c (splitOnChar_subset ':' _ p1 hp1 c hc) with hdg | rfl
      · exact hdg
      · exact absurd hc (splitOnChar_sep_not_mem ':' _ p1 hp1)
    have hd2 : ∀ c ∈ p2, c.isDigit = true := by
      intro c hc
      rcases halpha c (splitOnChar_subset ':' _ p2 hp2 c hc) with hdg | rfl
      · exact hdg
      · exact absurd hc (splitOnChar_sep_not_mem ':' _ p2 hp2)
    have hd3 : ∀ c ∈ p3, c.isDigit = true := by
      intro c hc
      rcases halpha c (splitOnChar_subset ':' _ p3 hp3 c hc) with hdg | rfl
      · exact hdg
      · exact absurd hc (splitOnChar_sep_not_mem ':' _ p3 hp3)
    have ha : 0 ≤ a := jsParseInt_nonneg p1
      (fun hcm => absurd (hd1 '-' hcm) (by decide)) a h1
    have hb : 0 ≤ b := jsParseInt_nonneg p2
      (fun hcm => absurd (hd2 '-' hcm) (by decide)) b h2
    have hcc : 0 ≤ c0 := jsParseInt_nonneg p3
      (fun hcm => absurd (hd3 '-' hcm) (by decide)) c0 h3
    have habc : a = 0 ∧ b = 0 ∧ c0 = 0 := by omega
    have hne1 : ¬ p1 = [] := by
      intro he
      rw [he, jsParseInt_nil] at h1
      exact Option.noConfusion h1
    have hne2 : ¬ p2 = [] := by
      intro he
      rw [he, jsParseInt_nil] at h2
      exact Option.noConfusion h2
    have hne3 : ¬ p3 = [] := by
      intro he
      rw [he, jsParseInt_nil] at h3
      exact Option.noConfusion h3
    rw [jsParseInt_digits p1 hne1 hd1] at h1
    rw [jsParseInt_digits p2 hne2 hd2] at h2
    rw [jsParseInt_digits p3 hne3 hd3] at h3
    have hv1 : Int.ofNat (digitsVal p1) = a := Option.some.inj h1
    have hv2 : Int.ofNat (digitsVal p2) = b := Option.some.inj h2
    have hv3 : Int.ofNat (digitsVal p3) = c0 := Option.some.inj h3
    rw [habc.1] at hv1
    rw [habc.2.1] at hv2
    rw [habc.2.2] at hv3
    have hz1 : digitsVal p1 = 0 := Int.ofNat_eq_zero.mp hv1
    have hz2 : digitsVal p2 = 0 := Int.ofNat_eq_zero.mp hv2
    have hz3 : digitsVal p3 = 0 := Int.ofNat_eq_zero.mp hv3
    intro c hc hcd
    obtain ⟨part, hpart, hcpart⟩ := splitOnChar_cover ':' s.toList c hc
      (fun he => absurd (he ▸ hcd) (by decide))
    rw [hsp] at hpart
    rcases List.mem_cons.mp hpart with rfl | hpart
    · exact digitsVal_zero_all_zero _ hd1 hz1 c hcpart
    rcases List.mem_cons.mp hpart with rfl | hpart
    · exact digitsVal_zero_all_zero _ hd2 hz2 c hcpart
    · rw [List.mem_singleton.mp hpart] at hcpart
      exact digitsVal_zero_all_zero _ hd3 hz3 c hcpart

/-! ## C7: parse result range (corrected) -/

/-- C7 counterexample: `parseKomTime "-5:30"` returns -270, a negative
number, because `parseInt("-5", 10) = -5`. -/
theorem parse_nonneg_counterexample :
    parseKomTime "-5:30" = some (-270) ∧ ¬ (0 : ℤ) ≤ -270 :=
  ⟨by decide, by decide⟩

/-- C7 amended: parseKomTime returns an integer or the not-parseable
signal; on inputs containing no `-` character the result is never
negative; signed colon components can produce negative results
(`"-5:30"` yields -270); and on digit-and-colon-only inputs the result is
zero only when every digit of the literal is `0`. -/
theorem parse_nonneg_amended :
    (∀ (s : String) (n : ℤ), parseKomTime s = some n → '-' ∉ s.toList → 0 ≤ n)
    ∧ parseKomTime "-5:30" = some (-270)
    ∧ (∀ (s : String) (n : ℤ), (∀ c ∈ s.toList, c.isDigit = true ∨ c = ':') →
        parseKomTime s = some n → n = 0 →
        ∀ c ∈ s.toList, c.isDigit = true → c = '0') :=
  ⟨fun s n h hm => parseKomTime_nonneg s n hm h, by decide,
    fun s n halpha h hz => parseKomTime_zero_digits s n halpha h hz⟩

/-- Witness for C7's amended claim at `"5:30"` (non-negativity) and
`"0:00"` (zero only from an all-zero literal). -/
theorem parse_nonneg_amended_witness :
    (0 : ℤ) ≤ 330
    ∧ (∀ c ∈ ("0:00" : String).toList, c.isDigit = true → c = '0') :=
  ⟨parse_nonneg_amended.1 "5:30" 330 (by decide) (by decide),
    parse_nonneg_amended.2.2 "0:00" 0 (by decide) (by decide) rfl⟩

end SegmentDifficulty
